import Mathlib

/-!
Verification of the task-board core of the `modal-drift` repository: the
task collection, its derived filter/grouping views, the drag-interaction
handlers (`handleDragOver`, `handleDragEnd`), the store mutations
(`handleSaveTask`, `handleDeleteTask`, `handleStatusUpdate`) and the modal
form's `handleSubmit` validation.  Each definition is a shallow embedding of
the corresponding TypeScript function; timestamps and generated ids are
passed in explicitly (the source obtains them from `new Date()` and
`Math.random()`).
-/

namespace ModalDrift

/-- Priority of a task: `'urgent' | 'high' | 'medium' | 'low'` (src/types/task.ts). -/
inductive Priority where
  | urgent
  | high
  | medium
  | low
  deriving DecidableEq, Repr

/-- Status of a task: `'todo' | 'progress' | 'completed'` (src/types/task.ts). -/
inductive Status where
  | todo
  | progress
  | completed
  deriving DecidableEq, Repr

/-- The `Task` interface of src/types/task.ts.  Dates and timestamps are the
raw strings the code stores. -/
structure Task where
  id : String
  name : String
  assignedTo : String
  startDate : String
  endDate : String
  priority : Priority
  status : Status
  images : List String
  description : Option String
  createdAt : String
  updatedAt : String
  deriving DecidableEq, Repr

/-- The `TaskFormData` interface of src/types/task.ts: the draft carried by
the modal form.  It has no `id`, `status`, `images` or timestamp fields. -/
structure TaskFormData where
  name : String
  assignedTo : String
  startDate : String
  endDate : String
  priority : Priority
  description : Option String
  deriving DecidableEq, Repr

/-- The status string used by the filter dropdown (`task.status === statusFilter`
compares the status against a plain string such as "todo" or "all"). -/
def Status.toStr : Status → String
  | .todo => "todo"
  | .progress => "progress"
  | .completed => "completed"

/-- The check `priorities.includes(overId)` followed by the cast
`overId as Priority` in `handleDragOver` (part_000 lines 129-131): a drop
target id names a priority bucket exactly when it is one of the four tags. -/
def toPriority : String → Option Priority
  | "urgent" => some .urgent
  | "high" => some .high
  | "medium" => some .medium
  | "low" => some .low
  | _ => none

/-- dnd-kit's `arrayMove(array, from, to)`: remove the element at `from` and
re-insert it at `to` (a `splice` insertion past the end appends, modelled by
the `min`).  When `from` is out of range the JS code would splice `undefined`
into the array; that branch is unreachable from the handlers, which obtain
`from` by `findIndex` on an element known to be present, and is modelled as
the identity. -/
def arrayMove (l : List α) (i j : Nat) : List α :=
  match l[i]? with
  | none => l
  | some x =>
    let rest := l.eraseIdx i
    rest.insertIdx (min j rest.length) x

/-- The reorder step of `handleDragEnd` (part_000 lines 158-166) as the store
operation `reorder(priority, fromIndex, toIndex)`: move the task at index `i`
of the `p`-priority subsequence to index `j`, then rebuild the collection as
all tasks of other priorities followed by the reordered `p`-priority tasks
(`setTasks([...otherTasks, ...reorderedTasks])`).  No-op when `i = j`. -/
def reorder (tasks : List Task) (p : Priority) (i j : Nat) : List Task :=
  if i ≠ j then
    (tasks.filter fun t => decide (t.priority ≠ p))
      ++ arrayMove (tasks.filter fun t => decide (t.priority = p)) i j
  else
    tasks

/-- Search predicate of `filteredTasks` (part_000 lines 95-96): case-insensitive
substring match of the query against `name` or `assignedTo`. -/
def matchesSearch (q : String) (t : Task) : Bool :=
  decide (q.toLower.toList <:+: t.name.toLower.toList)
    || decide (q.toLower.toList <:+: t.assignedTo.toLower.toList)

/-- Status predicate of `filteredTasks` (part_000 line 97). -/
def matchesStatus (sf : String) (t : Task) : Bool :=
  sf == "all" || t.status.toStr == sf

/-- Date predicate of `filteredTasks` (part_000 lines 98-99).  The source
compares `new Date(task.createdAt).toDateString()` with
`dateFilter.toDateString()`; `dayOf` stands for the calendar-day projection
`s ↦ new Date(s).toDateString()`, and the filter value is the projected
day string (or `none` when unset). -/
def matchesDate (dayOf : String → String) (df : Option String) (t : Task) : Bool :=
  match df with
  | none => true
  | some d => dayOf t.createdAt == d

/-- `filteredTasks` (part_000 lines 94-101): conjunction of the three
predicates over the canonical collection. -/
def filteredTasks (dayOf : String → String) (q sf : String) (df : Option String)
    (tasks : List Task) : List Task :=
  tasks.filter fun t => matchesSearch q t && matchesStatus sf t && matchesDate dayOf df t

/-- The four priority buckets of `groupedTasks` (part_000 lines 103-108). -/
structure GroupedTasks where
  urgent : List Task
  high : List Task
  medium : List Task
  low : List Task
  deriving DecidableEq, Repr

/-- `groupedTasks` (part_000 lines 103-108): partition of the filtered
subsequence into the four priority buckets. -/
def groupedTasks (dayOf : String → String) (q sf : String) (df : Option String)
    (tasks : List Task) : GroupedTasks :=
  let ft := filteredTasks dayOf q sf df tasks
  { urgent := ft.filter fun t => decide (t.priority = .urgent)
    high := ft.filter fun t => decide (t.priority = .high)
    medium := ft.filter fun t => decide (t.priority = .medium)
    low := ft.filter fun t => decide (t.priority = .low) }

/-- `handleDragOver` (part_000 lines 118-140).  `activeId` is `active.id`,
`over` the optional drop target id, `now` the `new Date().toISOString()`
timestamp.  If the target is a priority bucket differing from the active
task's priority, the active task's priority and `updatedAt` are replaced;
in every other case the collection is returned unchanged. -/
def handleDragOver (tasks : List Task) (activeId : String) (over : Option String)
    (now : String) : List Task :=
  match over with
  | none => tasks
  | some overId =>
    match tasks.find? (fun t => decide (t.id = activeId)) with
    | none => tasks
    | some activeTask =>
      match toPriority overId with
      | none => tasks
      | some newPriority =>
        if activeTask.priority ≠ newPriority then
          tasks.map fun t =>
            if t.id = activeId then { t with priority := newPriority, updatedAt := now } else t
        else
          tasks

/-- `handleDragEnd` (part_000 lines 142-168).  Returns the new collection and
the new active-task marker (`setActiveTask(null)` runs first, so the marker
is always cleared).  When the target is another task of the same priority the
collection is rebuilt from the reordered priority subsequence. -/
def handleDragEnd (tasks : List Task) (activeId : String) (over : Option String) :
    List Task × Option Task :=
  let newTasks :=
    match over with
    | none => tasks
    | some overId =>
      match tasks.find? (fun t => decide (t.id = activeId)) with
      | none => tasks
      | some activeTask =>
        match tasks.find? (fun t => decide (t.id = overId)) with
        | none => tasks
        | some overTask =>
          if activeTask.priority = overTask.priority then
            let priorityTasks := tasks.filter fun t => decide (t.priority = activeTask.priority)
            let activeIndex := priorityTasks.findIdx fun t => decide (t.id = activeId)
            let overIndex := priorityTasks.findIdx fun t => decide (t.id = overId)
            if activeIndex ≠ overIndex then
              (tasks.filter fun t => decide (t.priority ≠ activeTask.priority))
                ++ arrayMove priorityTasks activeIndex overIndex
            else
              tasks
          else
            tasks
  (newTasks, none)

/-- A toast notification as emitted by the handlers; `destructive` is the
`variant: "destructive"` flag used for error toasts. -/
structure Toast where
  title : String
  description : String
  destructive : Bool
  deriving DecidableEq, Repr

/-- `handleDeleteTask` (part_000 lines 181-188): filters the id out of the
collection and always emits the success toast "Task Deleted" — there is no
presence check and no error path.  When the id is absent the interpolated
`task?.name` is the string "undefined". -/
def handleDeleteTask (tasks : List Task) (taskId : String) : List Task × Toast :=
  let task? := tasks.find? fun t => decide (t.id = taskId)
  let nm := match task? with
    | some t => t.name
    | none => "undefined"
  (tasks.filter fun t => decide (t.id ≠ taskId),
   { title := "Task Deleted"
     description := "Task \"" ++ nm ++ "\" has been deleted successfully."
     destructive := false })

/-- `handleStatusUpdate` (part_000 lines 190-201): set `status` and refresh
`updatedAt` on the matching task. -/
def handleStatusUpdate (tasks : List Task) (taskId : String) (newStatus : Status)
    (now : String) : List Task :=
  tasks.map fun t =>
    if t.id = taskId then { t with status := newStatus, updatedAt := now } else t

/-- Create branch of `handleSaveTask` (part_000 lines 219-229): build a new
task from the draft — `status: 'todo'` is written after the spread, the id
comes from `generateId()` and both timestamps are the same instant — and
append it to the collection. -/
def handleSaveTask_create (tasks : List Task) (d : TaskFormData) (images : List String)
    (newId timestamp : String) : List Task :=
  tasks ++ [{ id := newId
              name := d.name
              assignedTo := d.assignedTo
              startDate := d.startDate
              endDate := d.endDate
              priority := d.priority
              status := .todo
              images := images
              description := d.description
              createdAt := timestamp
              updatedAt := timestamp }]

/-- Update branch of `handleSaveTask` (part_000 lines 206-217): spread the
draft's fields and the image list over the existing task and refresh
`updatedAt`; `id`, `status` and `createdAt` are not in the draft and so are
kept. -/
def handleSaveTask_update (tasks : List Task) (editingId : String) (d : TaskFormData)
    (images : List String) (timestamp : String) : List Task :=
  tasks.map fun task =>
    if task.id = editingId then
      { task with
        name := d.name
        assignedTo := d.assignedTo
        startDate := d.startDate
        endDate := d.endDate
        priority := d.priority
        description := d.description
        images := images
        updatedAt := timestamp }
    else
      task

/-- Gregorian leap-year rule, as used by the JS `Date` engine. -/
def isLeapYear (y : Nat) : Bool :=
  (y % 4 == 0 && y % 100 != 0) || y % 400 == 0

/-- Number of days of month `m` in year `y`. -/
def daysInMonth (y m : Nat) : Nat :=
  if m = 2 then (if isLeapYear y then 29 else 28)
  else if m = 4 ∨ m = 6 ∨ m = 9 ∨ m = 11 then 30
  else 31

/-- Split a character list at every dash, like `String.prototype.split("-")`. -/
def splitDash : List Char → List (List Char)
  | [] => [[]]
  | c :: cs =>
    if c = '-' then [] :: splitDash cs
    else
      match splitDash cs with
      | [] => [[c]]
      | g :: gs => (c :: g) :: gs

/-- Numeric value of a decimal digit string. -/
def digitsVal (cs : List Char) : Nat :=
  cs.foldl (fun n c => n * 10 + (c.toNat - 48)) 0

/-- Model of `new Date(s)` applied to the value of an `<input type="date">`
field: such a value is either the empty string or an ISO `YYYY-MM-DD` string.
A well-formed calendar date parses to its `(year, month, day)` triple; the
empty string and every malformed string give an invalid date (JS `NaN` time
value), modelled as `none`. -/
def parseDate (s : String) : Option (Nat × Nat × Nat) :=
  match splitDash s.toList with
  | [ys, ms, ds] =>
    if ys.length = 4 ∧ ms.length = 2 ∧ ds.length = 2
        ∧ (ys ++ ms ++ ds).all Char.isDigit then
      let y := digitsVal ys
      let m := digitsVal ms
      let d := digitsVal ds
      if 1 ≤ m ∧ m ≤ 12 ∧ 1 ≤ d ∧ d ≤ daysInMonth y m then some (y, m, d) else none
    else none
  | _ => none

/-- Strict chronological order on parsed calendar dates; for date-only ISO
strings this coincides with the order of the JS time values. -/
def dateLt : Nat × Nat × Nat → Nat × Nat × Nat → Bool
  | (y1, m1, d1), (y2, m2, d2) =>
    decide (y1 < y2)
      || (y1 == y2 && (decide (m1 < m2) || (m1 == m2 && decide (d1 < d2))))

/-- The comparison `new Date(a) > new Date(b)` of `handleSubmit` (part_001
line 104).  JS compares the numeric time values and any comparison involving
`NaN` is false, so the result is true only when both strings parse and `a`
is chronologically after `b`. -/
def jsDateGt (a b : String) : Bool :=
  match parseDate a, parseDate b with
  | some x, some y => dateLt y x
  | _, _ => false

/-- Outcome of a form submit: either an early return with a destructive toast
(the two validation rejections) or a call of `onSave` with the draft and the
image list. -/
inductive SubmitOutcome where
  | rejected (title : String)
  | saved (d : TaskFormData) (images : List String)
  deriving DecidableEq, Repr

/-- The test `!s.trim()` of `handleSubmit`: a string trims to the empty
string exactly when every character is whitespace. -/
def trimsToEmpty (s : String) : Bool :=
  s.toList.all fun c => c.isWhitespace

/-- `handleSubmit` of the task modal (part_001 lines 92-130): reject with the
"Missing Information" toast when `name` or `assignedTo` trims to empty,
reject with the "Invalid Dates" toast when `new Date(startDate) >
new Date(endDate)`, and otherwise hand the draft and images to `onSave`. -/
def handleSubmit (d : TaskFormData) (images : List String) : SubmitOutcome :=
  if trimsToEmpty d.name ∨ trimsToEmpty d.assignedTo then .rejected "Missing Information"
  else if jsDateGt d.startDate d.endDate then .rejected "Invalid Dates"
  else .saved d images

/-- Composition of the modal's `handleSubmit` with the manager's
`handleSaveTask` (the `onSave` callback): a rejected submit never reaches the
store, a successful one commits the update branch when a task is being edited
and the create branch otherwise. -/
def submitAndSave (tasks : List Task) (editing : Option String) (d : TaskFormData)
    (images : List String) (newId timestamp : String) : List Task :=
  match handleSubmit d images with
  | .rejected _ => tasks
  | .saved d2 imgs =>
    match editing with
    | some eid => handleSaveTask_update tasks eid d2 imgs timestamp
    | none => handleSaveTask_create tasks d2 imgs newId timestamp

/-- Replacement of the `p`-priority positions of a collection by the elements
of a replacement list, in order, every other task keeping its position.  This
is the splice-back step the specification describes for `reorder`. -/
def spliceBack (p : Priority) : List Task → List Task → List Task
  | [], _ => []
  | t :: ts, reps =>
    if t.priority = p then
      match reps with
      | [] => t :: spliceBack p ts []
      | r :: rs => r :: spliceBack p ts rs
    else
      t :: spliceBack p ts reps

/-- The `reorder` operation as the specification words it: remove the task at
`fromIndex` within the `p`-priority subsequence, reinsert it at `toIndex`,
and splice the resulting subsequence back into the collection at the
positions the `p`-priority tasks previously occupied, preserving the
interleaving with other-priority tasks.  Stated for comparison with the
implemented `reorder`. -/
def reorderSpec (tasks : List Task) (p : Priority) (i j : Nat) : List Task :=
  if i ≠ j then
    spliceBack p tasks (arrayMove (tasks.filter fun t => decide (t.priority = p)) i j)
  else
    tasks

/-- First sample task of `initialTasks` (part_000 lines 35-47). -/
def task1 : Task :=
  { id := "1"
    name := "Design system components"
    assignedTo := "Sarah Johnson"
    startDate := "2024-01-15"
    endDate := "2024-01-25"
    priority := .high
    status := .todo
    images := []
    description := some "Create reusable components for the design system"
    createdAt := "2024-01-10T10:00:00Z"
    updatedAt := "2024-01-10T10:00:00Z" }

/-- Second sample task of `initialTasks` (part_000 lines 48-60). -/
def task2 : Task :=
  { id := "2"
    name := "API integration"
    assignedTo := "Mike Chen"
    startDate := "2024-01-18"
    endDate := "2024-01-30"
    priority := .urgent
    status := .todo
    images := []
    description := some "Integrate third-party APIs"
    createdAt := "2024-01-12T09:00:00Z"
    updatedAt := "2024-01-12T09:00:00Z" }

/-- Third sample task of `initialTasks` (part_000 lines 61-73). -/
def task3 : Task :=
  { id := "3"
    name := "Documentation update"
    assignedTo := "Emily Davis"
    startDate := "2024-01-20"
    endDate := "2024-02-05"
    priority := .low
    status := .todo
    images := []
    description := some "Update project documentation"
    createdAt := "2024-01-14T14:00:00Z"
    updatedAt := "2024-01-14T14:00:00Z" }

/-- The `initialTasks` sample collection (part_000 lines 34-74). -/
def initialTasks : List Task := [task1, task2, task3]

/-- A second high-priority task, used to exercise reordering on a collection
where the high-priority tasks interleave with tasks of other priorities. -/
def task4 : Task :=
  { task1 with id := "4", name := "Design token audit" }

/-- Collection with interleaved priorities: high, urgent, low, high. -/
def demoTasks : List Task := [task1, task2, task3, task4]

/-- Inserting an element at a position within the list is a permutation of
pushing it on the front. -/
theorem insertIdx_perm_cons (x : α) :
    ∀ (n : Nat) (l : List α), n ≤ l.length → List.Perm (l.insertIdx n x) (x :: l)
  | 0, l, _ => by simp
  | n + 1, [], h => by simp at h
  | n + 1, a :: l, h => by
    simp only [List.insertIdx_succ_cons]
    exact ((insertIdx_perm_cons x n l (Nat.le_of_succ_le_succ h)).cons a).trans
      (List.Perm.swap x a l)

/-- Removing the element at a position and re-consing it in front is a
permutation of the original list. -/
theorem cons_eraseIdx_perm :
    ∀ (l : List α) (i : Nat) (x : α), l[i]? = some x → List.Perm (x :: l.eraseIdx i) l
  | [], _, x, h => by simp at h
  | a :: l, 0, x, h => by
    simp only [List.getElem?_cons_zero, Option.some.injEq] at h
    subst h
    simp [List.eraseIdx]
  | a :: l, i + 1, x, h => by
    simp only [List.getElem?_cons_succ] at h
    simp only [List.eraseIdx_cons_succ]
    exact (List.Perm.swap a x _).trans ((cons_eraseIdx_perm l i x h).cons a)

/-- `arrayMove` permutes its input. -/
theorem arrayMove_perm (l : List α) (i j : Nat) : List.Perm (arrayMove l i j) l := by
  cases h : l[i]? with
  | none => simp [arrayMove, h]
  | some x =>
    simp only [arrayMove, h]
    exact (insertIdx_perm_cons x _ _ (Nat.min_le_right _ _)).trans
      (cons_eraseIdx_perm l i x h)

/-- C1 (counterexample): on the collection [task1 high, task2 urgent,
task3 low, task4 high], `reorder(high, 0, 1)` yields
[task2, task3, task4, task1] — the high-priority group is clustered at the
end — whereas splicing the reordered subsequence back into the previously
occupied positions would yield [task4, task2, task3, task1]; the two
disagree, so the reinsertion does not preserve the interleaving with
other-priority tasks. -/
theorem reorder_not_spliced_counterexample :
    reorder demoTasks Priority.high 0 1 = [task2, task3, task4, task1] ∧
    reorderSpec demoTasks Priority.high 0 1 = [task4, task2, task3, task1] ∧
    ¬ reorder demoTasks Priority.high 0 1 = reorderSpec demoTasks Priority.high 0 1 := by
  decide

/-- C1 (amended): for indices `i ≠ j` of the `p`-priority subsequence,
`reorder(p, i, j)` removes the task at `i` within that subsequence and
reinserts it at `j`, but then rebuilds the canonical collection as all
other-priority tasks (in their original relative order) followed by the
reordered `p`-priority subsequence: the `p` group is clustered after the
others instead of being spliced back into the positions it previously
occupied, so the interleaving with other-priority tasks is not preserved. -/
theorem reorder_removes_reinserts_then_clusters
    (tasks : List Task) (p : Priority) (i j : Nat) (x : Task)
    (hij : i ≠ j)
    (hx : (tasks.filter fun t => decide (t.priority = p))[i]? = some x)
    (hj : j < (tasks.filter fun t => decide (t.priority = p)).length) :
    reorder tasks p i j =
      (tasks.filter fun t => decide (t.priority ≠ p))
        ++ ((tasks.filter fun t => decide (t.priority = p)).eraseIdx i).insertIdx j x := by
  have hi : i < (tasks.filter fun t => decide (t.priority = p)).length := by
    rw [List.getElem?_eq_some] at hx
    exact hx.1
  have hlen : ((tasks.filter fun t => decide (t.priority = p)).eraseIdx i).length
      = (tasks.filter fun t => decide (t.priority = p)).length - 1 := by
    rw [List.length_eraseIdx]
    simp [hi]
  simp only [reorder, if_pos hij, arrayMove, hx]
  rw [hlen, Nat.min_eq_left (by omega)]

/-- Closed instance of the amended C1 statement at the demo collection. -/
theorem reorder_removes_reinserts_then_clusters_witness :
    reorder demoTasks Priority.high 0 1 =
      (demoTasks.filter fun t => decide (t.priority ≠ Priority.high))
        ++ ((demoTasks.filter fun t => decide (t.priority = Priority.high)).eraseIdx 0).insertIdx
            1 task1 :=
  reorder_removes_reinserts_then_clusters demoTasks Priority.high 0 1 task1
    (by decide) (by decide) (by decide)

/-- C2: for valid indices of the `p`-priority subsequence, `reorder(p, i, j)`
preserves the multiset of task ids of priority `p` (and the multiset of the
`p`-priority tasks themselves), and leaves the subsequence of tasks whose
priority is not `p` — hence their relative order — unchanged. -/
theorem reorder_frame
    (tasks : List Task) (p : Priority) (i j : Nat)
    (hi : i < (tasks.filter fun t => decide (t.priority = p)).length)
    (hj : j < (tasks.filter fun t => decide (t.priority = p)).length) :
    List.Perm (((reorder tasks p i j).filter fun t => decide (t.priority = p)).map Task.id)
        ((tasks.filter fun t => decide (t.priority = p)).map Task.id) ∧
    List.Perm ((reorder tasks p i j).filter fun t => decide (t.priority = p))
        (tasks.filter fun t => decide (t.priority = p)) ∧
    ((reorder tasks p i j).filter fun t => decide (t.priority ≠ p)) =
      (tasks.filter fun t => decide (t.priority ≠ p)) := by
  by_cases hij : i = j
  · have hr : reorder tasks p i j = tasks := by
      subst hij
      simp [reorder]
    rw [hr]
    exact ⟨List.Perm.refl _, List.Perm.refl _, rfl⟩
  · have hr : reorder tasks p i j =
        (tasks.filter fun t => decide (t.priority ≠ p))
          ++ arrayMove (tasks.filter fun t => decide (t.priority = p)) i j := by
      simp only [reorder, if_pos hij]
    set pts := tasks.filter fun t => decide (t.priority = p) with hpts
    set oth := tasks.filter fun t => decide (t.priority ≠ p) with hoth
    set mv := arrayMove pts i j with hmv
    have hmvperm : List.Perm mv pts := arrayMove_perm pts i j
    have hmv_mem : ∀ t ∈ mv, t.priority = p := by
      intro t ht
      have : t ∈ pts := hmvperm.subset ht
      have := List.of_mem_filter this
      simpa using this
    have hoth_mem : ∀ t ∈ oth, ¬ t.priority = p := by
      intro t ht
      have := List.of_mem_filter ht
      simpa using this
    have h1 : (oth.filter fun t => decide (t.priority = p)) = [] := by
      rw [List.filter_eq_nil_iff]
      intro t ht
      simpa using hoth_mem t ht
    have h2 : (oth.filter fun t => decide (t.priority ≠ p)) = oth := by
      rw [List.filter_eq_self]
      intro t ht
      simpa using hoth_mem t ht
    have h3 : (mv.filter fun t => decide (t.priority = p)) = mv := by
      rw [List.filter_eq_self]
      intro t ht
      simpa using hmv_mem t ht
    have h4 : (mv.filter fun t => decide (t.priority ≠ p)) = [] := by
      rw [List.filter_eq_nil_iff]
      intro t ht
      simpa using hmv_mem t ht
    have hfp : ((reorder tasks p i j).filter fun t => decide (t.priority = p)) = mv := by
      rw [hr, List.filter_append, h1, h3, List.nil_append]
    have hfo : ((reorder tasks p i j).filter fun t => decide (t.priority ≠ p)) = oth := by
      rw [hr, List.filter_append, h2, h4, List.append_nil]
    refine ⟨?_, ?_, ?_⟩
    · rw [hfp]
      exact hmvperm.map Task.id
    · rw [hfp]
      exact hmvperm
    · rw [hfo]

/-- Closed instance of the C2 statement at the demo collection. -/
theorem reorder_frame_witness :
    List.Perm (((reorder demoTasks Priority.high 0 1).filter
          fun t => decide (t.priority = Priority.high)).map Task.id)
        ((demoTasks.filter fun t => decide (t.priority = Priority.high)).map Task.id) ∧
    List.Perm ((reorder demoTasks Priority.high 0 1).filter
          fun t => decide (t.priority = Priority.high))
        (demoTasks.filter fun t => decide (t.priority = Priority.high)) ∧
    ((reorder demoTasks Priority.high 0 1).filter
        fun t => decide (t.priority ≠ Priority.high)) =
      (demoTasks.filter fun t => decide (t.priority ≠ Priority.high)) :=
  reorder_frame demoTasks Priority.high 0 1 (by decide) (by decide)

/-- C3 (counterexample): deleting the absent id "999" from the sample
collection leaves the collection unchanged but emits the non-destructive
success toast "Task Deleted" (with the interpolated name "undefined"): the
operation is reported as success, not as a `NotFoundError` failure. -/
theorem delete_absent_success_counterexample :
    (handleDeleteTask initialTasks "999").1 = initialTasks ∧
    (handleDeleteTask initialTasks "999").2 =
      { title := "Task Deleted"
        description := "Task \"undefined\" has been deleted successfully."
        destructive := false } := by
  decide

/-- C3 (amended): for every collection and id not present in it, `delete(id)`
leaves the collection unchanged, but no `NotFoundError` is raised: the
handler unconditionally reports success with a non-destructive "Task Deleted"
toast, so double-delete is reported as success. -/
theorem delete_absent_noop_reports_success (tasks : List Task) (taskId : String)
    (habs : ∀ t ∈ tasks, t.id ≠ taskId) :
    (handleDeleteTask tasks taskId).1 = tasks ∧
    (handleDeleteTask tasks taskId).2.title = "Task Deleted" ∧
    (handleDeleteTask tasks taskId).2.destructive = false := by
  refine ⟨?_, rfl, rfl⟩
  simp only [handleDeleteTask]
  rw [List.filter_eq_self]
  intro t ht
  simpa using habs t ht

/-- Closed instance of the amended C3 statement at the sample collection. -/
theorem delete_absent_noop_reports_success_witness :
    (handleDeleteTask initialTasks "999").1 = initialTasks ∧
    (handleDeleteTask initialTasks "999").2.title = "Task Deleted" ∧
    (handleDeleteTask initialTasks "999").2.destructive = false :=
  delete_absent_noop_reports_success initialTasks "999" (by decide)

/-- C4: for every draft, `create` appends to the end of the collection a
single new task whose status is `todo` regardless of the draft, whose
`createdAt` and `updatedAt` are both the creation instant, whose id is the
generated id, and whose remaining fields and images are copied verbatim from
the draft; all existing tasks are left unchanged. -/
theorem create_appends_todo_task (tasks : List Task) (d : TaskFormData)
    (images : List String) (newId timestamp : String) :
    ∃ t : Task,
      handleSaveTask_create tasks d images newId timestamp = tasks ++ [t] ∧
      t.status = Status.todo ∧
      t.createdAt = timestamp ∧
      t.updatedAt = timestamp ∧
      t.id = newId ∧
      t.name = d.name ∧
      t.assignedTo = d.assignedTo ∧
      t.startDate = d.startDate ∧
      t.endDate = d.endDate ∧
      t.priority = d.priority ∧
      t.description = d.description ∧
      t.images = images :=
  ⟨_, rfl, rfl, rfl, rfl, rfl, rfl, rfl, rfl, rfl, rfl, rfl, rfl⟩

/-- C5: when the draft's name or assignee trims to empty, or the parsed start
date is after the parsed end date, the form submit is rejected with a
validation toast and the collection committed through `onSave` is left
unchanged — no store commit occurs. -/
theorem submit_rejects_invalid (tasks : List Task) (editing : Option String)
    (d : TaskFormData) (images : List String) (newId timestamp : String)
    (hbad : trimsToEmpty d.name = true ∨ trimsToEmpty d.assignedTo = true
      ∨ jsDateGt d.startDate d.endDate = true) :
    (∃ ttl, handleSubmit d images = SubmitOutcome.rejected ttl) ∧
    submitAndSave tasks editing d images newId timestamp = tasks := by
  have hs : ∃ ttl, handleSubmit d images = SubmitOutcome.rejected ttl := by
    by_cases h1 : trimsToEmpty d.name = true ∨ trimsToEmpty d.assignedTo = true
    · exact ⟨"Missing Information", by simp only [handleSubmit, if_pos h1]⟩
    · have h2 : jsDateGt d.startDate d.endDate = true := by tauto
      exact ⟨"Invalid Dates", by simp only [handleSubmit, if_neg h1, if_pos h2]⟩
  obtain ⟨ttl, hs⟩ := hs
  refine ⟨⟨ttl, hs⟩, ?_⟩
  simp [submitAndSave, hs]

/-- The scenario draft of the specification: start date after end date. -/
def badDatesDraft : TaskFormData :=
  { name := "Design"
    assignedTo := "Sarah"
    startDate := "2024-02-01"
    endDate := "2024-01-01"
    priority := .high
    description := none }

/-- Closed instance of the C5 statement at the scenario draft whose start
date 2024-02-01 is after its end date 2024-01-01. -/
theorem submit_rejects_invalid_witness :
    (∃ ttl, handleSubmit badDatesDraft [] = SubmitOutcome.rejected ttl) ∧
    submitAndSave initialTasks none badDatesDraft [] "n" "T" = initialTasks :=
  submit_rejects_invalid initialTasks none badDatesDraft [] "n" "T"
    (Or.inr (Or.inr (by decide)))

/-- C6: on a dragOver signal whose target id is one of the four priority tags
and differs from the active task's current priority, the active task's
priority is immediately set to the target priority and its `updatedAt` is
refreshed, with no reorder (every position keeps its task) and no change to
any other task or field; when the target is null, not a priority tag, or the
task's current priority, dragOver changes nothing. -/
theorem dragOver_sets_priority_live (tasks : List Task) (activeId : String)
    (over : Option String) (now : String) :
    (over = none → handleDragOver tasks activeId over now = tasks) ∧
    (∀ overId, over = some overId → toPriority overId = none →
      handleDragOver tasks activeId over now = tasks) ∧
    (∀ overId act, over = some overId →
      tasks.find? (fun t => decide (t.id = activeId)) = some act →
      toPriority overId = some act.priority →
      handleDragOver tasks activeId over now = tasks) ∧
    (∀ overId act p, over = some overId →
      tasks.find? (fun t => decide (t.id = activeId)) = some act →
      toPriority overId = some p → p ≠ act.priority →
      (handleDragOver tasks activeId over now).length = tasks.length ∧
      ∀ (k : Nat) (t : Task), tasks[k]? = some t →
        (t.id ≠ activeId → (handleDragOver tasks activeId over now)[k]? = some t) ∧
        (t.id = activeId →
          (handleDragOver tasks activeId over now)[k]? =
            some { t with priority := p, updatedAt := now })) := by
  refine ⟨?_, ?_, ?_, ?_⟩
  · intro h
    subst h
    rfl
  · intro oId hov htp
    subst hov
    cases hf : tasks.find? (fun t => decide (t.id = activeId)) with
    | none => simp [handleDragOver, hf]
    | some act => simp [handleDragOver, hf, htp]
  · intro oId act hov hfind htp
    subst hov
    simp [handleDragOver, hfind, htp]
  · intro oId act p hov hfind htp hne
    subst hov
    simp only [handleDragOver, hfind, htp]
    rw [if_pos (Ne.symm hne)]
    refine ⟨List.length_map _ _, ?_⟩
    intro k t hk
    refine ⟨?_, ?_⟩
    · intro hneq
      rw [List.getElem?_map, hk]
      simp [hneq]
    · intro heq
      rw [List.getElem?_map, hk]
      simp [heq]

/-- Closed instance of the C6 statement: dragging task 1 (priority high) over
the "urgent" column immediately rewrites its priority and `updatedAt` while
task 2 keeps its position and value. -/
theorem dragOver_sets_priority_live_witness :
    (handleDragOver initialTasks "1" (some "urgent") "T")[0]? =
      some { task1 with priority := Priority.urgent, updatedAt := "T" } ∧
    (handleDragOver initialTasks "1" (some "urgent") "T")[1]? = some task2 :=
  ⟨(((dragOver_sets_priority_live initialTasks "1" (some "urgent") "T").2.2.2
      "urgent" task1 Priority.urgent rfl (by decide) rfl (by decide)).2 0 task1 rfl).2 rfl,
   (((dragOver_sets_priority_live initialTasks "1" (some "urgent") "T").2.2.2
      "urgent" task1 Priority.urgent rfl (by decide) rfl (by decide)).2 1 task2 rfl).1
      (by decide)⟩

/-- C7: on a dragEnd signal, when the target id identifies another task in
the collection sharing the active task's priority, the collection becomes
exactly `reorder` applied at the two tasks' positions within that priority's
subsequence; when the target is null, an id with no matching task (a
priority bucket), a task of a different priority, or yields equal positions
(dropping on self), the collection is unchanged; in every case the
active-task marker is cleared. -/
theorem dragEnd_reorders_same_priority (tasks : List Task) (activeId : String)
    (over : Option String) :
    ((handleDragEnd tasks activeId over).2 = none) ∧
    (over = none → (handleDragEnd tasks activeId over).1 = tasks) ∧
    (∀ overId, over = some overId →
      tasks.find? (fun t => decide (t.id = activeId)) = none →
      (handleDragEnd tasks activeId over).1 = tasks) ∧
    (∀ overId, over = some overId →
      tasks.find? (fun t => decide (t.id = overId)) = none →
      (handleDragEnd tasks activeId over).1 = tasks) ∧
    (∀ overId act ovt, over = some overId →
      tasks.find? (fun t => decide (t.id = activeId)) = some act →
      tasks.find? (fun t => decide (t.id = overId)) = some ovt →
      act.priority ≠ ovt.priority →
      (handleDragEnd tasks activeId over).1 = tasks) ∧
    (∀ overId act ovt, over = some overId →
      tasks.find? (fun t => decide (t.id = activeId)) = some act →
      tasks.find? (fun t => decide (t.id = overId)) = some ovt →
      act.priority = ovt.priority →
      (handleDragEnd tasks activeId over).1 =
        reorder tasks act.priority
          ((tasks.filter fun t => decide (t.priority = act.priority)).findIdx
            fun t => decide (t.id = activeId))
          ((tasks.filter fun t => decide (t.priority = act.priority)).findIdx
            fun t => decide (t.id = overId))) ∧
    (∀ overId act ovt, over = some overId →
      tasks.find? (fun t => decide (t.id = activeId)) = some act →
      tasks.find? (fun t => decide (t.id = overId)) = some ovt →
      act.priority = ovt.priority →
      ((tasks.filter fun t => decide (t.priority = act.priority)).findIdx
          fun t => decide (t.id = activeId)) =
        ((tasks.filter fun t => decide (t.priority = act.priority)).findIdx
          fun t => decide (t.id = overId)) →
      (handleDragEnd tasks activeId over).1 = tasks) := by
  refine ⟨rfl, ?_, ?_, ?_, ?_, ?_, ?_⟩
  · intro h
    subst h
    rfl
  · intro oId hov hfa
    subst hov
    simp [handleDragEnd, hfa]
  · intro oId hov hfo
    subst hov
    cases hfa : tasks.find? (fun t => decide (t.id = activeId)) with
    | none => simp [handleDragEnd, hfa]
    | some act => simp [handleDragEnd, hfa, hfo]
  · intro oId act ovt hov hfa hfo hpr
    subst hov
    simp [handleDragEnd, hfa, hfo, hpr]
  · intro oId act ovt hov hfa hfo hpr
    subst hov
    simp only [handleDragEnd, hfa, hfo, if_pos hpr, reorder]
  · intro oId act ovt hov hfa hfo hpr hidx
    subst hov
    simp only [handleDragEnd, hfa, hfo, if_pos hpr]
    rw [if_neg (fun h => h hidx)]

/-- Closed instance of the C7 statement: dropping task 1 on task 4 (both
high priority) performs the reorder at their positions within the
high-priority subsequence. -/
theorem dragEnd_reorders_same_priority_witness :
    (handleDragEnd demoTasks "1" (some "4")).1 =
      reorder demoTasks task1.priority
        ((demoTasks.filter fun t => decide (t.priority = task1.priority)).findIdx
          fun t => decide (t.id = "1"))
        ((demoTasks.filter fun t => decide (t.priority = task1.priority)).findIdx
          fun t => decide (t.id = "4")) :=
  (dragEnd_reorders_same_priority demoTasks "1" (some "4")).2.2.2.2.2.1
    "4" task1 task4 rfl (by decide) (by decide) (by decide)

/-- C8: a task appears in the filtered result iff it is in the collection and
matches the search, status and date predicates simultaneously; the filtered
result is a subsequence of the collection (relative order preserved, the
collection itself untouched), and each of the four priority buckets is the
subsequence of the filtered result with that priority, again preserving
relative order. -/
theorem filtered_grouped_spec (dayOf : String → String) (q sf : String)
    (df : Option String) (tasks : List Task) :
    List.Sublist (filteredTasks dayOf q sf df tasks) tasks ∧
    (∀ t : Task, t ∈ filteredTasks dayOf q sf df tasks ↔
      t ∈ tasks ∧ matchesSearch q t = true ∧ matchesStatus sf t = true ∧
        matchesDate dayOf df t = true) ∧
    List.Sublist (groupedTasks dayOf q sf df tasks).urgent
      (filteredTasks dayOf q sf df tasks) ∧
    List.Sublist (groupedTasks dayOf q sf df tasks).high
      (filteredTasks dayOf q sf df tasks) ∧
    List.Sublist (groupedTasks dayOf q sf df tasks).medium
      (filteredTasks dayOf q sf df tasks) ∧
    List.Sublist (groupedTasks dayOf q sf df tasks).low
      (filteredTasks dayOf q sf df tasks) ∧
    (∀ t : Task, t ∈ (groupedTasks dayOf q sf df tasks).urgent ↔
      t ∈ filteredTasks dayOf q sf df tasks ∧ t.priority = Priority.urgent) ∧
    (∀ t : Task, t ∈ (groupedTasks dayOf q sf df tasks).high ↔
      t ∈ filteredTasks dayOf q sf df tasks ∧ t.priority = Priority.high) ∧
    (∀ t : Task, t ∈ (groupedTasks dayOf q sf df tasks).medium ↔
      t ∈ filteredTasks dayOf q sf df tasks ∧ t.priority = Priority.medium) ∧
    (∀ t : Task, t ∈ (groupedTasks dayOf q sf df tasks).low ↔
      t ∈ filteredTasks dayOf q sf df tasks ∧ t.priority = Priority.low) := by
  refine ⟨List.filter_sublist _, ?_, List.filter_sublist _, List.filter_sublist _,
    List.filter_sublist _, List.filter_sublist _, ?_, ?_, ?_, ?_⟩
  · intro t
    rw [filteredTasks, List.mem_filter]
    simp [Bool.and_eq_true, and_assoc]
  · intro t
    simp [groupedTasks, List.mem_filter]
  · intro t
    simp [groupedTasks, List.mem_filter]
  · intro t
    simp [groupedTasks, List.mem_filter]
  · intro t
    simp [groupedTasks, List.mem_filter]

/-- C9: `update(id, patch)` maps every position of the collection: the task
at the edited id receives exactly the draft's fields and the image list and
a refreshed `updatedAt`, while its `id`, `createdAt` and `status` — absent
from the draft — are preserved; every task with a different id is left
entirely unchanged, and the collection keeps its length. -/
theorem update_merges_draft (tasks : List Task) (editingId : String)
    (d : TaskFormData) (images : List String) (timestamp : String) :
    (handleSaveTask_update tasks editingId d images timestamp).length = tasks.length ∧
    ∀ (k : Nat) (t : Task), tasks[k]? = some t →
      ∃ t2 : Task,
        (handleSaveTask_update tasks editingId d images timestamp)[k]? = some t2 ∧
        t2.id = t.id ∧ t2.createdAt = t.createdAt ∧ t2.status = t.status ∧
        (t.id = editingId →
          t2.name = d.name ∧ t2.assignedTo = d.assignedTo ∧
          t2.startDate = d.startDate ∧ t2.endDate = d.endDate ∧
          t2.priority = d.priority ∧ t2.description = d.description ∧
          t2.images = images ∧ t2.updatedAt = timestamp) ∧
        (t.id ≠ editingId → t2 = t) := by
  refine ⟨List.length_map _ _, ?_⟩
  intro k t hk
  by_cases hid : t.id = editingId
  · have hmap : (handleSaveTask_update tasks editingId d images timestamp)[k]? =
        some { t with
               name := d.name
               assignedTo := d.assignedTo
               startDate := d.startDate
               endDate := d.endDate
               priority := d.priority
               description := d.description
               images := images
               updatedAt := timestamp } := by
      simp [handleSaveTask_update, List.getElem?_map, hk, hid]
    exact ⟨_, hmap, rfl, rfl, rfl,
      fun _ => ⟨rfl, rfl, rfl, rfl, rfl, rfl, rfl, rfl⟩, fun h => absurd hid h⟩
  · have hmap : (handleSaveTask_update tasks editingId d images timestamp)[k]? =
        some t := by
      simp [handleSaveTask_update, List.getElem?_map, hk, hid]
    exact ⟨t, hmap, rfl, rfl, rfl, fun h => absurd h hid, fun _ => rfl⟩

/-- A draft used to edit task 1. -/
def editDraft : TaskFormData :=
  { name := "Design system components v2"
    assignedTo := "Sarah J."
    startDate := "2024-01-16"
    endDate := "2024-01-26"
    priority := .medium
    description := some "Revised scope" }

/-- Closed instance of the C9 statement: editing task 1 with a draft. -/
theorem update_merges_draft_witness :
    ∃ t2 : Task,
      (handleSaveTask_update initialTasks "1" editDraft ["img"] "TS")[0]? = some t2 ∧
      t2.id = task1.id ∧ t2.createdAt = task1.createdAt ∧ t2.status = task1.status ∧
      (task1.id = "1" →
        t2.name = editDraft.name ∧ t2.assignedTo = editDraft.assignedTo ∧
        t2.startDate = editDraft.startDate ∧ t2.endDate = editDraft.endDate ∧
        t2.priority = editDraft.priority ∧ t2.description = editDraft.description ∧
        t2.images = ["img"] ∧ t2.updatedAt = "TS") ∧
      (task1.id ≠ "1" → t2 = task1) :=
  (update_merges_draft initialTasks "1" editDraft ["img"] "TS").2 0 task1 rfl

/-- C10: for a draft whose name and assignee do not trim to empty, the form
submit is rejected with the "Invalid Dates" toast iff both date strings parse
and the parsed start date is strictly after the parsed end date; when either
date is empty or unparsable the `NaN` comparison is false, so the draft is
NOT rejected and is committed with both date strings stored verbatim. -/
theorem submit_rejects_dates_iff_parsed (d : TaskFormData) (images : List String)
    (hn : trimsToEmpty d.name = false) (ha : trimsToEmpty d.assignedTo = false) :
    (handleSubmit d images = SubmitOutcome.rejected "Invalid Dates" ↔
      (∃ a b, parseDate d.startDate = some a ∧ parseDate d.endDate = some b ∧
        dateLt b a = true)) ∧
    ((parseDate d.startDate = none ∨ parseDate d.endDate = none) →
      handleSubmit d images = SubmitOutcome.saved d images) ∧
    ((parseDate d.startDate = none ∨ parseDate d.endDate = none) →
      ∀ (tasks : List Task) (newId timestamp : String), ∃ t : Task,
        submitAndSave tasks none d images newId timestamp = tasks ++ [t] ∧
        t.startDate = d.startDate ∧ t.endDate = d.endDate) := by
  have hc : ¬ (trimsToEmpty d.name = true ∨ trimsToEmpty d.assignedTo = true) := by
    simp [hn, ha]
  have hsub : handleSubmit d images =
      if jsDateGt d.startDate d.endDate then SubmitOutcome.rejected "Invalid Dates"
      else SubmitOutcome.saved d images := by
    simp only [handleSubmit, if_neg hc]
  have hgt : jsDateGt d.startDate d.endDate = true ↔
      (∃ a b, parseDate d.startDate = some a ∧ parseDate d.endDate = some b ∧
        dateLt b a = true) := by
    unfold jsDateGt
    cases hpa : parseDate d.startDate <;> cases hpb : parseDate d.endDate <;> simp
  have hnone : (parseDate d.startDate = none ∨ parseDate d.endDate = none) →
      jsDateGt d.startDate d.endDate = false := by
    intro h
    unfold jsDateGt
    cases hpa : parseDate d.startDate <;> cases hpb : parseDate d.endDate <;> simp_all
  have hsaved : (parseDate d.startDate = none ∨ parseDate d.endDate = none) →
      handleSubmit d images = SubmitOutcome.saved d images := by
    intro h
    rw [hsub, hnone h]
    simp
  refine ⟨?_, hsaved, ?_⟩
  · rw [hsub, ← hgt]
    cases hg : jsDateGt d.startDate d.endDate <;> simp [hg]
  · intro h tasks newId timestamp
    have hs := hsaved h
    have hcommit : submitAndSave tasks none d images newId timestamp =
        handleSaveTask_create tasks d images newId timestamp := by
      simp [submitAndSave, hs]
    rw [hcommit]
    refine ⟨_, rfl, ?_, ?_⟩ <;> rfl

/-- A draft whose end date is the empty string: `new Date("")` is an invalid
date, so the start-after-end comparison is false. -/
def nanDateDraft : TaskFormData :=
  { name := "Design"
    assignedTo := "Sarah"
    startDate := "2024-02-01"
    endDate := ""
    priority := .high
    description := none }

/-- Closed instance of the C10 statement: a draft with start date 2024-02-01
and empty end date is committed, not rejected. -/
theorem submit_rejects_dates_iff_parsed_witness :
    handleSubmit nanDateDraft [] = SubmitOutcome.saved nanDateDraft [] :=
  (submit_rejects_dates_iff_parsed nanDateDraft [] (by decide) (by decide)).2.1
    (Or.inr (by decide))

end ModalDrift
